import Mathlib

/-!
Shallow embedding of the lock-free queue in src/LockFreeQueue.hpp.

The embedding models single-threaded (sequential) executions of the code.
The heap is explicit: nodes live at natural-number addresses (allocation
appends to a list, addresses are list indices, and addresses are never
reused).  The C++ operator delete is modelled by marking a node dead
(alive := false); any subsequent access to a dead node (a C++
use-after-free), any dereference of a null pointer, and any delete of an
already-deleted node is a fault, modelled by returning Option.none.
Reference counters are unsigned int in the source, so they are naturals
reduced modulo 2^32 at every fetch_add and fetch_sub.

Notes on the source, which does not compile as written; the embedding
applies only the minimal repairs forced by the surrounding declarations
and records every one of them here:
  - compare_exange_strong (push lines 158 and 170) is read as
    compare_exchange_strong;
  - memory_order_rel (push line 151) is read as memory_order_release
    (memory orderings are immaterial in the sequential model);
  - result = next->data (pop line 201) assigns to an undeclared name; it
    is read as an assignment to the out-parameter value of
    bool pop(T& value), the only T object in scope.
A payload slot that was never assigned (Node's default constructor leaves
data default-initialized, hence indeterminate for scalar T) is modelled
as Option.none; reading an indeterminate payload is a fault.
-/

namespace LockFreeQueue

/-- Modulus of the unsigned int reference counters (32 bits). -/
def WORD : Nat := 4294967296

/-- Models fetch_add(1) on an unsigned int counter. -/
def fetchAdd1 (c : Nat) : Nat := (c + 1) % WORD

/-- Models fetch_sub(1) on an unsigned int counter (wraps at zero). -/
def fetchSub1 (c : Nat) : Nat := (c + (WORD - 1)) % WORD

/-- State of one Node<T>: payload slot (none = indeterminate, never
assigned), the next pointer, the two reference counters, and whether the
node is still allocated (alive = false once delete ran). -/
structure NodeState (T : Type) where
  data : Option T
  next : Option Nat
  internal_ref_count : Nat
  external_ref_count : Nat
  alive : Bool
  deriving DecidableEq, Repr

/-- Node's default constructor Node(): next = nullptr, both counters 0,
data left unassigned (indeterminate). -/
def nodeDefault (T : Type) : NodeState T :=
  { data := none, next := none, internal_ref_count := 0,
    external_ref_count := 0, alive := true }

/-- Node's value constructor Node(const T& value): stores the value,
next = nullptr, internal_ref_count = 1, external_ref_count = 0.
(The queue code never calls this constructor.) -/
def nodeValue {T : Type} (value : T) : NodeState T :=
  { data := some value, next := none, internal_ref_count := 1,
    external_ref_count := 0, alive := true }

/-- State of one LockFreeQueue<T>: the heap of all nodes ever allocated
(address = index) and the two atomic entry points. -/
structure QueueState (T : Type) where
  heap : List (NodeState T)
  head_ : Option Nat
  tail_ : Option Nat
  deriving DecidableEq, Repr

/-- Heap read at an address (no aliveness check; compare getNode). -/
def heapGet {T : Type} : List (NodeState T) → Nat → Option (NodeState T)
  | [], _ => none
  | n :: _, 0 => some n
  | _ :: t, a + 1 => heapGet t a

/-- Heap write at an address (identity when out of range). -/
def heapSet {T : Type} : List (NodeState T) → Nat → NodeState T → List (NodeState T)
  | [], _, _ => []
  | _ :: t, 0, m => m :: t
  | h :: t, a + 1, m => h :: heapSet t a m

/-- Dereference a node address: fault (none) when the address is bad or
the node has already been deleted (use-after-free). -/
def getNode {T : Type} (s : QueueState T) (a : Nat) : Option (NodeState T) :=
  (heapGet s.heap a).bind (fun n => if n.alive = true then some n else none)

/-- Overwrite the node at an address. -/
def setNode {T : Type} (s : QueueState T) (a : Nat) (n : NodeState T) : QueueState T :=
  { s with heap := heapSet s.heap a n }

/-- Models operator delete: marks the node dead; deleting a dead or
invalid node is a fault (double free). -/
def deleteNode {T : Type} (s : QueueState T) (a : Nat) : Option (QueueState T) :=
  match getNode s a with
  | some n => some (setNode s a { n with alive := false })
  | none => none

/-- Models operator new: appends the node, returning its address. -/
def allocNode {T : Type} (s : QueueState T) (n : NodeState T) : QueueState T × Nat :=
  ({ s with heap := s.heap ++ [n] }, s.heap.length)

/-- The two atomic entry points head_ and tail_ of the queue, used to
model claim_node's reference parameter std::atomic<Node<T>*>&. -/
inductive Slot
  | head
  | tail
  deriving DecidableEq, Repr

/-- Atomic load of an entry point. -/
def loadSlot {T : Type} (s : QueueState T) : Slot → Option Nat
  | Slot.head => s.head_
  | Slot.tail => s.tail_

/-- Atomic store to an entry point. -/
def storeSlot {T : Type} (s : QueueState T) (sl : Slot) (v : Option Nat) : QueueState T :=
  match sl with
  | Slot.head => { s with head_ := v }
  | Slot.tail => { s with tail_ := v }

/-- Models compare_exchange_strong on an entry point: returns the new
state, the success flag, and the observed value (which C++ writes back
into the expected argument on failure). -/
def casSlot {T : Type} (s : QueueState T) (sl : Slot) (expected newval : Option Nat) :
    QueueState T × Bool × Option Nat :=
  let cur := loadSlot s sl
  if cur = expected then (storeSlot s sl newval, true, cur)
  else (s, false, cur)

/-- Models compare_exchange_strong on the next field of the node at
address a; faults when the node is dead. -/
def casNext {T : Type} (s : QueueState T) (a : Nat) (expected newval : Option Nat) :
    Option (QueueState T × Bool) :=
  match getNode s a with
  | none => none
  | some n =>
    if n.next = expected then some (setNode s a { n with next := newval }, true)
    else some (s, false)

/-- Embeds LockFreeQueue::claim_node (source lines 127-134): load the
entry point; if the pointer is non-null, fetch_add(1) its node's
external_ref_count (a fault when the node is already freed); return the
pointer. -/
def claim_node {T : Type} (s : QueueState T) (sl : Slot) :
    Option (QueueState T × Option Nat) :=
  match loadSlot s sl with
  | none => some (s, none)
  | some a =>
    match getNode s a with
    | none => none
    | some n =>
      some (setNode s a { n with external_ref_count := fetchAdd1 n.external_ref_count },
            some a)

/-- Embeds LockFreeQueue::release_node_ref (source lines 87-98):
fetch_sub(1) on external_ref_count; if the previous value was 1 and
internal_ref_count reads 0, delete the node.  (Never called by
push or pop.) -/
def release_node_ref {T : Type} (s : QueueState T) (node : Option Nat) :
    Option (QueueState T) :=
  match node with
  | none => some s
  | some a =>
    match getNode s a with
    | none => none
    | some n =>
      let prev := n.external_ref_count
      let s1 := setNode s a { n with external_ref_count := fetchSub1 prev }
      if prev = 1 then
        match getNode s1 a with
        | none => none
        | some n1 =>
          if n1.internal_ref_count = 0 then deleteNode s1 a else some s1
      else some s1

/-- Embeds LockFreeQueue::release_internal_counter (source lines
101-111): fetch_sub(1) on internal_ref_count; if the previous value was
1 and external_ref_count reads 0, delete the node. -/
def release_internal_counter {T : Type} (s : QueueState T) (node : Option Nat) :
    Option (QueueState T) :=
  match node with
  | none => some s
  | some a =>
    match getNode s a with
    | none => none
    | some n =>
      let prev := n.internal_ref_count
      let s1 := setNode s a { n with internal_ref_count := fetchSub1 prev }
      if prev = 1 then
        match getNode s1 a with
        | none => none
        | some n1 =>
          if n1.external_ref_count = 0 then deleteNode s1 a else some s1
      else some s1

/-- Embeds LockFreeQueue::free_external_counter (source lines 113-125):
fetch_sub(1) on external_ref_count; if the previous value was 1, also
fetch_sub(1) on internal_ref_count, and delete the node if that previous
value was 1 as well. -/
def free_external_counter {T : Type} (s : QueueState T) (node : Option Nat) :
    Option (QueueState T) :=
  match node with
  | none => some s
  | some a =>
    match getNode s a with
    | none => none
    | some n =>
      let prev := n.external_ref_count
      let s1 := setNode s a { n with external_ref_count := fetchSub1 prev }
      if prev = 1 then
        match getNode s1 a with
        | none => none
        | some n1 =>
          let prevI := n1.internal_ref_count
          let s2 := setNode s1 a { n1 with internal_ref_count := fetchSub1 prevI }
          if prevI = 1 then deleteNode s2 a else some s2
      else some s1

/-- Embeds the constructor LockFreeQueue() (source lines 70-76): allocate
a default node, store 1 into its internal_ref_count, point head_ and
tail_ at it. -/
def construct (T : Type) : QueueState T :=
  { heap := [{ nodeDefault T with internal_ref_count := 1 }],
    head_ := some 0, tail_ := some 0 }

/-- Embeds the retry loop of LockFreeQueue::push (source lines 139-174)
for an already-allocated node address; fuel bounds the number of loop
iterations (none = fuel exhausted or fault). -/
def pushLoop {T : Type} (s : QueueState T) (node : Nat) : Nat → Option (QueueState T)
  | 0 => none
  | fuel + 1 =>
    match loadSlot s Slot.tail with
    | none => none
    | some la =>
      match getNode s la with
      | none => none
      | some ln =>
        let next := ln.next
        if loadSlot s Slot.tail = some la then
          match next with
          | none =>
            match casNext s la none (some node) with
            | none => none
            | some (s1, ok) =>
              if ok then
                match getNode s1 node with
                | none => none
                | some nn =>
                  let s2 := setNode s1 node
                    { nn with internal_ref_count := fetchAdd1 nn.internal_ref_count }
                  let (s3, _, _) := casSlot s2 Slot.tail (some la) (some node)
                  release_internal_counter s3 (some node)
              else pushLoop s1 node fuel
          | some nx =>
            let (s1, _, _) := casSlot s Slot.tail (some la) (some nx)
            pushLoop s1 node fuel
        else pushLoop s node fuel

/-- Embeds LockFreeQueue::push (source lines 136-175): allocate a
default-constructed node (the source ignores its value argument: it runs
new Node<T>{}, never storing value into the node) and enter the retry
loop. -/
def push {T : Type} (s : QueueState T) (value : T) (fuel : Nat) : Option (QueueState T) :=
  let (s1, node) := allocNode s (nodeDefault T)
  pushLoop s1 node fuel

/-- Embeds the retry loop of LockFreeQueue::pop (source lines 179-209).
The T argument carries the current contents of the by-reference
out-parameter value; the T in the result is its final contents, and the
Bool is pop's return value.  Fuel bounds loop iterations. -/
def popLoop {T : Type} (s : QueueState T) (value : T) :
    Nat → Option (QueueState T × Bool × T)
  | 0 => none
  | fuel + 1 =>
    match claim_node s Slot.head with
    | none => none
    | some (s1, first) =>
      match first with
      | none => none
      | some fa =>
        match getNode s1 fa with
        | none => none
        | some fn =>
          let s2 := setNode s1 fa
            { fn with external_ref_count := fetchAdd1 fn.external_ref_count }
          match getNode s2 fa with
          | none => none
          | some fn2 =>
            let next := fn2.next
            match claim_node s2 Slot.tail with
            | none => none
            | some (s3, last) =>
              if (some fa : Option Nat) = last then
                match free_external_counter s3 last with
                | none => none
                | some s4 =>
                  match next with
                  | none =>
                    match free_external_counter s4 (some fa) with
                    | none => none
                    | some s5 => some (s5, false, value)
                  | some nx =>
                    let (s5, _, _) := casSlot s4 Slot.tail last (some nx)
                    match free_external_counter s5 (some fa) with
                    | none => none
                    | some s6 => popLoop s6 value fuel
              else
                match next with
                | some nx =>
                  let (s4, ok, observed) := casSlot s3 Slot.head (some fa) (some nx)
                  if ok then
                    match getNode s4 nx with
                    | none => none
                    | some nn =>
                      match nn.data with
                      | none => none
                      | some v =>
                        match free_external_counter s4 last with
                        | none => none
                        | some s5 =>
                          match free_external_counter s5 (some fa) with
                          | none => none
                          | some s6 => some (s6, true, v)
                  else
                    match free_external_counter s4 last with
                    | none => none
                    | some s5 =>
                      match free_external_counter s5 observed with
                      | none => none
                      | some s6 => popLoop s6 value fuel
                | none =>
                  match free_external_counter s3 last with
                  | none => none
                  | some s4 =>
                    match free_external_counter s4 (some fa) with
                    | none => none
                    | some s5 => popLoop s5 value fuel

/-- Embeds LockFreeQueue::pop (source lines 177-210). -/
def pop {T : Type} (s : QueueState T) (value : T) (fuel : Nat) :
    Option (QueueState T × Bool × T) :=
  popLoop s value fuel

/-- Embeds the drain loop of the destructor (source lines 80-82):
while (pop(dummy_value)) is called with a per-call pop fuel; the outer
fuel bounds the number of while iterations. -/
def destructorLoop {T : Type} (s : QueueState T) (dummy_value : T) (popFuel : Nat) :
    Nat → Option (QueueState T)
  | 0 => none
  | n + 1 =>
    match pop s dummy_value popFuel with
    | none => none
    | some (s1, b, v1) =>
      if b then destructorLoop s1 v1 popFuel n
      else
        match loadSlot s1 Slot.head with
        | none => some s1
        | some a => deleteNode s1 a

/-- Embeds the destructor (source lines 78-85).  The statement
T dummy_value; default-constructs a payload, which the embedding renders
as the Inhabited default; push and pop need no such instance. -/
def destructor {T : Type} [Inhabited T] (s : QueueState T) (popFuel loopFuel : Nat) :
    Option (QueueState T) :=
  destructorLoop s (default : T) popFuel loopFuel

/-- A queue state that the reclamation protocol is supposed to produce:
a sentinel at address 0 (internal count 1, linked to its successor) and
one enqueued node at address 1 holding payload 5 (internal count 1).
Used to exercise the success path of pop in isolation. -/
def twoNodeState : QueueState Nat :=
  { heap := [{ data := none, next := some 1, internal_ref_count := 1,
               external_ref_count := 0, alive := true },
             { data := some 5, next := none, internal_ref_count := 1,
               external_ref_count := 0, alive := true }],
    head_ := some 0, tail_ := some 1 }

/-! Helper lemmas about the heap model. -/

theorem heapGet_heapSet_self {T : Type} :
    ∀ (l : List (NodeState T)) (a : Nat) (n m : NodeState T),
      heapGet l a = some n → heapGet (heapSet l a m) a = some m := by
  intro l
  induction l with
  | nil => intro a n m h; simp [heapGet] at h
  | cons x t ih =>
    intro a n m h
    cases a with
    | zero => simp [heapGet, heapSet]
    | succ b =>
      simp only [heapGet, heapSet] at h ⊢
      exact ih b n m h

theorem heapSet_heapSet_self {T : Type} :
    ∀ (l : List (NodeState T)) (a : Nat) (m m' : NodeState T),
      heapSet (heapSet l a m) a m' = heapSet l a m' := by
  intro l
  induction l with
  | nil => intro a m m'; rfl
  | cons x t ih =>
    intro a m m'
    cases a with
    | zero => rfl
    | succ b => simp only [heapSet]; rw [ih]

theorem getNode_elim {T : Type} {s : QueueState T} {a : Nat} {n : NodeState T}
    (h : getNode s a = some n) : heapGet s.heap a = some n ∧ n.alive = true := by
  unfold getNode at h
  cases hg : heapGet s.heap a with
  | none => rw [hg] at h; simp at h
  | some x =>
    rw [hg] at h
    by_cases hx : x.alive = true
    · simp [hx] at h
      subst h
      exact ⟨rfl, hx⟩
    · simp [hx] at h

theorem getNode_setNode_self {T : Type} {s : QueueState T} {a : Nat} {n : NodeState T}
    (hn : getNode s a = some n) (m : NodeState T) (hm : m.alive = true) :
    getNode (setNode s a m) a = some m := by
  obtain ⟨hg, _⟩ := getNode_elim hn
  have h2 := heapGet_heapSet_self s.heap a n m hg
  unfold getNode setNode
  simp [h2, hm]

theorem setNode_setNode {T : Type} (s : QueueState T) (a : Nat) (m m' : NodeState T) :
    setNode (setNode s a m) a m' = setNode s a m' := by
  simp [setNode, heapSet_heapSet_self]

theorem fetchSub1_one : fetchSub1 1 = 0 := by decide

/-!
Claim theorems.
-/

/-- C1: the claim says that after sequentially pushing 1, 2, 3, three
sequential pops return 1, 2, 3 and a fourth pop reports not-found.  The
code refutes this at the very first step: push(1) on a fresh queue links
its new node (the sentinel's next points at it) but then frees that node
(push allocates with the default constructor, so internal_ref_count
starts at 0; the fetch_add after linking brings it to 1 and the final
release_internal_counter drops it back to 0 and deletes the node).  The
subsequent pop then faults by dereferencing the freed node through
tail_, instead of returning 1.  The sequence of the claim is therefore
impossible: pops cannot yield the pushed values. -/
theorem C1_fifo_scenarioA_fails :
    (push (construct Nat) 1 4).map
        (fun s1 => ((heapGet s1.heap 0).map NodeState.next,
                    (heapGet s1.heap 1).map NodeState.alive)) =
      some (some (some 1), some false) ∧
    (push (construct Nat) 1 4).bind (fun s1 => pop s1 0 4) = none := by
  exact ⟨by decide, by decide⟩

/-- C2: the claim says every pop attempt takes exactly one external hold
on the head node and matches every claim with exactly one release.  The
code takes two holds (claim_node plus a second explicit fetch_add) and
releases only one of them: after one pop on a fresh (empty) queue the
sentinel's external_ref_count is 1, and after a second pop it is 2 - an
unreleased hold accumulates per attempt. -/
theorem C2_double_external_claim :
    (pop (construct Nat) 0 1).map
        (fun r => (heapGet r.1.heap 0).map NodeState.external_ref_count) =
      some (some 1) ∧
    ((pop (construct Nat) 0 1).bind (fun r => pop r.1 r.2.2 1)).map
        (fun r => (r.2.1, (heapGet r.1.heap 0).map NodeState.external_ref_count)) =
      some (false, some 2) := by
  exact ⟨by decide, by decide⟩

/-- C3: the claim says every node reachable via next from head has
internal count at least 1 while linked, in particular a node just linked
by a completed push.  In the code, push(42) on a fresh queue returns
with the sentinel's next pointing at the new node while that node's
internal_ref_count is 0 and the node has already been deleted. -/
theorem C3_linked_node_freed :
    (push (construct Nat) 42 4).map
        (fun s => ((heapGet s.heap 0).map NodeState.next,
                   (heapGet s.heap 1).map
                     (fun n => (n.alive, n.internal_ref_count)))) =
      some (some (some 1), some (false, 0)) := by decide

/-- C4: the claim says no node is freed twice, none leaks, and no node
is accessed after being freed.  In the code, push(1) on a fresh queue
leaves tail_ pointing at a node it has already deleted, and the next
push dereferences that freed node (modelled as the fault none): a
use-after-free. -/
theorem C4_use_after_free :
    (push (construct Nat) 1 4).map
        (fun s1 => (s1.tail_, (heapGet s1.heap 1).map NodeState.alive)) =
      some (some 1, some false) ∧
    (push (construct Nat) 1 4).bind (fun s1 => push s1 2 4) = none := by
  exact ⟨by decide, by decide⟩

/-- C5: the claim says push(value) begins by allocating a node that
holds value with both counts zero.  The code allocates with the default
constructor (new Node<T> with empty initializer): both counts do start
at zero, but the
value argument is never stored anywhere, so the node's payload stays
indeterminate (modelled as none) rather than holding 7. -/
theorem C5_push_drops_value :
    nodeDefault Nat =
      { data := none, next := none, internal_ref_count := 0,
        external_ref_count := 0, alive := true } ∧
    (push (construct Nat) 7 4).map (fun s => (heapGet s.heap 1).map NodeState.data) =
      some (some none) := by
  exact ⟨by decide, by decide⟩

/-- C6: the claim says that on a successful head CAS, pop copies the
payload, releases the external hold on last, and applies the combined
release to first.  Running pop on a well-formed one-element queue
(twoNodeState) shows the code instead applies the combined release
free_external_counter to last as well: the popped node - which has just
become the new sentinel and is still referenced by head_ - gets its
internal count stripped and is deleted (alive = false), while the old
sentinel first keeps external_ref_count 1 (the duplicated hold is never
released) and internal_ref_count 1, so it is detached yet never freed. -/
theorem C6_pop_success_path_divergence :
    (pop twoNodeState 0 1).map (fun r => (r.2.1, r.2.2)) = some (true, 5) ∧
    (pop twoNodeState 0 1).map
        (fun r => (r.1.head_, (heapGet r.1.heap 1).map NodeState.alive)) =
      some (some 1, some false) ∧
    (pop twoNodeState 0 1).map
        (fun r => (heapGet r.1.heap 0).map
          (fun n => (n.alive, n.external_ref_count, n.internal_ref_count))) =
      some (some (true, 1, 1)) := by
  exact ⟨by decide, by decide, by decide⟩

/-- C7: the claim says that when pop sees head and tail on the same node
with next absent it releases its external holds and reports empty
immediately.  The code does return false immediately (a single loop
iteration suffices) with the out-parameter untouched, but of the three
external-count increments it performed on the sentinel (claim_node on
head_, the duplicated fetch_add, claim_node on tail_) only two are
released: the sentinel is left with external_ref_count 1 instead of 0. -/
theorem C7_empty_pop_leaves_hold :
    pop (construct Nat) 99 1 =
      some ({ heap := [{ data := none, next := none, internal_ref_count := 1,
                         external_ref_count := 1, alive := true }],
              head_ := some 0, tail_ := some 0 }, false, 99) := by decide

/-- C8: free_external_counter on a live node decrements the node's
external count; exactly when the count was 1 (the decrement brings it to
zero) it additionally decrements the internal count, and it deletes the
node exactly when that internal count was 1 as well (thereby also
reaching zero).  This is the combined-release behavior the claim
describes, stated as a complete case analysis of the operation. -/
theorem C8_free_external_counter_spec (T : Type) (s : QueueState T) (a : Nat)
    (n : NodeState T) (hn : getNode s a = some n) :
    free_external_counter s (some a) = some (
      if n.external_ref_count = 1 then
        if n.internal_ref_count = 1 then
          setNode s a { n with external_ref_count := 0, internal_ref_count := 0,
                               alive := false }
        else
          setNode s a { n with external_ref_count := 0,
                               internal_ref_count := fetchSub1 n.internal_ref_count }
      else
        setNode s a { n with external_ref_count := fetchSub1 n.external_ref_count }) := by
  have halive : n.alive = true := (getNode_elim hn).2
  have hA : getNode (setNode s a
      { n with external_ref_count := fetchSub1 n.external_ref_count }) a =
      some { n with external_ref_count := fetchSub1 n.external_ref_count } :=
    getNode_setNode_self hn _ halive
  have hB : getNode (setNode s a
      { n with internal_ref_count := fetchSub1 n.internal_ref_count,
               external_ref_count := fetchSub1 n.external_ref_count }) a =
      some { n with internal_ref_count := fetchSub1 n.internal_ref_count,
                    external_ref_count := fetchSub1 n.external_ref_count } :=
    getNode_setNode_self hn _ halive
  simp only [free_external_counter, hn, hA, deleteNode, setNode_setNode, hB]
  split_ifs with he hi
  · rw [he, hi, fetchSub1_one]
  · rw [he, fetchSub1_one]
  · rfl

/-- C9: every execution of pop that returns false leaves the
by-reference out-parameter exactly as the caller supplied it: no path
that reports empty (or that retries and then reports empty) writes to
it. -/
theorem C9_pop_false_frame (T : Type) (fuel : Nat) :
    ∀ (s : QueueState T) (v : T) (s' : QueueState T) (v' : T),
      pop s v fuel = some (s', false, v') → v' = v := by
  induction fuel with
  | zero =>
    intro s v s' v' h
    simp [pop, popLoop] at h
  | succ k ih =>
    intro s v s' v' h
    simp only [pop] at h ih
    simp only [popLoop] at h
    repeat' split at h
    all_goals (try exact ih _ _ _ _ h)
    all_goals simp_all

/-- Witness for C8 at a concrete input: the sentinel of a fresh queue
(external count 0, internal count 1); the operation wraps the unsigned
external counter and leaves the node allocated. -/
theorem C8_free_external_counter_spec_witness :
    getNode (construct Nat) 0 = some
      { data := none, next := none, internal_ref_count := 1,
        external_ref_count := 0, alive := true } ∧
    free_external_counter (construct Nat) (some 0) =
      some (setNode (construct Nat) 0
        { data := none, next := none, internal_ref_count := 1,
          external_ref_count := 4294967295, alive := true }) :=
  ⟨by decide,
   C8_free_external_counter_spec Nat (construct Nat) 0
     { data := none, next := none, internal_ref_count := 1,
       external_ref_count := 0, alive := true } (by decide)⟩

/-- Witness for C9 at a concrete input: pop on a fresh queue with the
out-parameter holding 7 returns false and leaves it at 7. -/
theorem C9_pop_false_frame_witness :
    pop (construct Nat) 7 1 =
      some ({ heap := [{ data := none, next := none, internal_ref_count := 1,
                         external_ref_count := 1, alive := true }],
              head_ := some 0, tail_ := some 0 }, false, 7) ∧ (7 : Nat) = 7 :=
  ⟨by decide,
   C9_pop_false_frame Nat 1 (construct Nat) 7
     { heap := [{ data := none, next := none, internal_ref_count := 1,
                  external_ref_count := 1, alive := true }],
       head_ := some 0, tail_ := some 0 } 7 (by decide)⟩

end LockFreeQueue
